import Mathlib

/-!
Verification development for a PostgreSQL logical-replication CDC consumer
(src/main.go).  The session loop, tuple decoding, relation cache and
bootstrap logic are embedded shallowly; the external pglogrepl / pgtype
libraries appear only through their interfaces (pre-parsed frames and a
text-decoder registry), exactly as the repository code consumes them.
Bytes are modelled as Nat (0..255), LSNs and timestamps as Nat, with the
Go zero time value modelled as 0.
-/

namespace CDC

/-- A decoded column value, modelling the interface value produced by
decodeTextColumnData: the null representation, a generic pass-through of
the raw text bytes (pgtype.GenericText), or a decoded integer
(a registered typed decoder such as int4). -/
inductive Value where
  | vNull : Value
  | vText : List Nat → Value
  | vInt : Nat → Value
deriving DecidableEq, Repr

/-- One column definition of a RelationMessage (pglogrepl.RelationMessageColumn):
flags, name and the declared type OID, as used by the loop in main.go. -/
structure RelationColumn where
  flags : Nat
  name : String
  dataType : Nat
deriving DecidableEq, Repr

/-- A cached relation schema (pglogrepl.RelationMessage): relation ID,
namespace, name and ordered column definitions. -/
structure RelationMessage where
  relationID : Nat
  relNamespace : String
  relationName : String
  columns : List RelationColumn
deriving DecidableEq, Repr

/-- One column of a TupleData (pglogrepl.TupleDataColumn): the tag byte
stored in the DataType field (110 = n null, 117 = u unchanged toast,
116 = t text, 98 = b binary) and the raw data bytes. -/
structure TupleColumn where
  dataType : Nat
  data : List Nat
deriving DecidableEq, Repr

/-- A tuple payload: the ordered column list of a TupleData. -/
structure TupleData where
  columns : List TupleColumn
deriving DecidableEq, Repr

/-- How the per-column loop of main.go can abort: fatalErr models a
log.Fatal call (typed message, process exit), panicErr models a Go
runtime panic such as an index out of range. -/
inductive Failure where
  | fatalErr : String → Failure
  | panicErr : String → Failure
deriving DecidableEq, Repr

/-- Go map assignment m[k] = v on an association list: replaces the
binding for k when present, otherwise appends it. -/
def mapInsert (m : List (String × Value)) (k : String) (v : Value) :
    List (String × Value) :=
  match m with
  | [] => [(k, v)]
  | (k₂, v₂) :: rest =>
      if k₂ = k then (k, v) :: rest else (k₂, v₂) :: mapInsert rest k v

/-- The relation cache relations[id] = msg assignment from main.go. -/
def insertRel (m : List (Nat × RelationMessage)) (k : Nat)
    (v : RelationMessage) : List (Nat × RelationMessage) :=
  match m with
  | [] => [(k, v)]
  | (k₂, v₂) :: rest =>
      if k₂ = k then (k, v) :: rest else (k₂, v₂) :: insertRel rest k v

/-- The relation cache lookup rel, ok := relations[id] from main.go. -/
def lookupRel (m : List (Nat × RelationMessage)) (k : Nat) :
    Option RelationMessage :=
  match m with
  | [] => none
  | (k₂, v₂) :: rest => if k₂ = k then some v₂ else lookupRel rest k

/-- A registry of type-specific text decoders, modelling the
pgtype.ConnInfo consulted by decodeTextColumnData: for a type OID it
yields the registered TextDecoder if one exists. -/
def Registry : Type := Nat → Option (List Nat → Except String Value)

/-- decodeTextColumnData from main.go: look up a decoder for the type
OID; if a type-specific text decoder is registered use it, otherwise
fall back to the generic pass-through decoder (pgtype.GenericText, which
keeps the raw text and never fails). -/
def decodeTextColumnData (ci : Registry) (data : List Nat)
    (dataType : Nat) : Except String Value :=
  match ci dataType with
  | some dec => dec data
  | none => Except.ok (Value.vText data)

/-- Decimal parse of ASCII digit bytes; none on an empty input or a
byte outside 48..57. -/
def parseDecimalDigits (data : List Nat) : Option Nat :=
  match data with
  | [] => none
  | _ =>
    data.foldl
      (fun acc b =>
        match acc with
        | none => none
        | some n => if 48 ≤ b ∧ b ≤ 57 then some (n * 10 + (b - 48)) else none)
      (some 0)

/-- The registered int4 text decoder of the pgtype library at OID 23:
parses the decimal text, failing on malformed bytes. -/
def int4TextDecoder (data : List Nat) : Except String Value :=
  match parseDecimalDigits data with
  | none => Except.error "invalid int4 syntax"
  | some n => Except.ok (Value.vInt n)

/-- A concrete registry as built by pgtype.NewConnInfo in main.go:
the int4 decoder is registered at OID 23; other OIDs fall back to the
generic pass-through. -/
def sampleConnInfo : Registry :=
  fun oid => if oid = 23 then some int4TextDecoder else none

/-- The per-column body of the Insert and Update loops of main.go.
The loop reads rel.Columns[idx].Name before switching on the tag byte,
so an index at or past the schema length is a runtime panic.  Tag 110
(n) binds the column name to nil; tag 117 (u, unchanged toast) only
prints the data and adds no binding; tag 116 (t) runs
decodeTextColumnData and on error calls log.Fatalln; tag 98 (b) only
prints the bytes; any other tag falls through the switch silently.
The result is the binding to add to the values map, if any. -/
def processColumn (ci : Registry) (relCols : List RelationColumn)
    (idx : Nat) (col : TupleColumn) :
    Except Failure (Option (String × Value)) :=
  match relCols[idx]? with
  | none => Except.error (Failure.panicErr "runtime error: index out of range")
  | some rc =>
    if col.dataType = 110 then
      Except.ok (some (rc.name, Value.vNull))
    else if col.dataType = 117 then
      Except.ok none
    else if col.dataType = 116 then
      match decodeTextColumnData ci col.data rc.dataType with
      | Except.error e =>
          Except.error (Failure.fatalErr ("error decoding column data: " ++ e))
      | Except.ok v => Except.ok (some (rc.name, v))
    else if col.dataType = 98 then
      Except.ok none
    else
      Except.ok none

/-- The indexed for-range over tuple columns of main.go, accumulating
the values map. -/
def processTupleAux (ci : Registry) (relCols : List RelationColumn) :
    Nat → List TupleColumn → List (String × Value) →
    Except Failure (List (String × Value))
  | _, [], acc => Except.ok acc
  | idx, c :: rest, acc =>
    match processColumn ci relCols idx c with
    | Except.error f => Except.error f
    | Except.ok none => processTupleAux ci relCols (idx + 1) rest acc
    | Except.ok (some (k, v)) =>
        processTupleAux ci relCols (idx + 1) rest (mapInsert acc k v)

/-- Decode a whole tuple into a values map, as the Insert and Update
cases of main.go do. -/
def processTuple (ci : Registry) (relCols : List RelationColumn)
    (cols : List TupleColumn) : Except Failure (List (String × Value)) :=
  processTupleAux ci relCols 0 cols []

/-- A logical-replication payload as handed to pglogrepl.Parse, at the
granularity the session loop consumes it: one constructor per message
kind the library can return, plus unknownTag for a payload whose leading
tag byte is none of the recognized kinds (the library default branch
returns an unknown-message-type error for it). -/
inductive WireLogical where
  | relation : RelationMessage → WireLogical
  | beginMsg : WireLogical
  | commitMsg : WireLogical
  | insert : Nat → TupleData → WireLogical
  | update : Nat → Option TupleData → TupleData → WireLogical
  | delete : Nat → Option TupleData → WireLogical
  | truncate : List Nat → WireLogical
  | typeMsg : WireLogical
  | originMsg : WireLogical
  | unknownTag : Nat → WireLogical
deriving DecidableEq, Repr

/-- pglogrepl.Parse at the interface level: a recognized kind parses to
itself, an unrecognized leading tag is an unknown-message-type error. -/
def parseLogical (w : WireLogical) : Except String WireLogical :=
  match w with
  | WireLogical.unknownTag t => Except.error ("unknown message type " ++ toString t)
  | m => Except.ok m

/-- A change event as emitted (logged) by the session loop: the INSERT
and Update log lines with their decoded value maps, the serialized
delete and truncate messages, the begin, commit and type prints, and
the unknown-message-type log line of the dispatch default branch. -/
inductive Event where
  | insertEvent : String → String → List (String × Value) → Event
  | updateEvent : String → String → List (String × Value) →
      List (String × Value) → Event
  | deleteLogged : Nat → Event
  | truncateLogged : List Nat → Event
  | beginLogged : Event
  | commitLogged : Event
  | typeLogged : Event
  | unknownLogged : Nat → Event
deriving DecidableEq, Repr

/-- The per-session mutable state of the loop in main.go:
clientXLogPos, nextStandbyMessageDeadline and the relations cache. -/
structure SessionState where
  clientXLogPos : Nat
  nextDeadline : Nat
  relations : List (Nat × RelationMessage)
deriving DecidableEq, Repr

/-- Dispatch of one parsed logical message, the inner switch of the
XLogData case in main.go: Relation messages overwrite the cache entry;
Begin, Commit, Type print and continue; Origin does nothing; Insert and
Update require a cached relation (log.Fatalf on a miss) and decode
their tuples; Delete and Truncate serialize and print without touching
the cache; a message kind the switch does not list is logged by the
default branch and skipped. -/
def handleLogical (ci : Registry) (s : SessionState) (m : WireLogical) :
    Except Failure (SessionState × List Event) :=
  match m with
  | WireLogical.relation rm =>
      Except.ok ({ s with relations := insertRel s.relations rm.relationID rm }, [])
  | WireLogical.beginMsg => Except.ok (s, [Event.beginLogged])
  | WireLogical.commitMsg => Except.ok (s, [Event.commitLogged])
  | WireLogical.insert rid tuple =>
      match lookupRel s.relations rid with
      | none => Except.error (Failure.fatalErr ("unknown relation ID " ++ toString rid))
      | some rel =>
        match processTuple ci rel.columns tuple.columns with
        | Except.error f => Except.error f
        | Except.ok values =>
            Except.ok (s, [Event.insertEvent rel.relNamespace rel.relationName values])
  | WireLogical.update rid oldT newT =>
      match lookupRel s.relations rid with
      | none => Except.error (Failure.fatalErr ("unknown relation ID " ++ toString rid))
      | some rel =>
        match (match oldT with
               | none => Except.ok []
               | some t => processTuple ci rel.columns t.columns) with
        | Except.error f => Except.error f
        | Except.ok oldValues =>
          match processTuple ci rel.columns newT.columns with
          | Except.error f => Except.error f
          | Except.ok newValues =>
              Except.ok (s, [Event.updateEvent rel.relNamespace rel.relationName
                              oldValues newValues])
  | WireLogical.delete rid _ => Except.ok (s, [Event.deleteLogged rid])
  | WireLogical.truncate rids => Except.ok (s, [Event.truncateLogged rids])
  | WireLogical.typeMsg => Except.ok (s, [Event.typeLogged])
  | WireLogical.originMsg => Except.ok (s, [])
  | WireLogical.unknownTag t => Except.ok (s, [Event.unknownLogged t])

/-- What one blocking receive of the loop yields: a deadline timeout, a
non-timeout receive error, a pgproto3.ErrorResponse frame, an
unexpected non-CopyData message, a CopyData frame whose first byte is
the keepalive ID (with the parse of ParsePrimaryKeepaliveMessage either
succeeding or failing), a CopyData frame whose first byte is the
XLogData ID (with the parse of ParseXLogData either succeeding, giving
WALStart, ServerWALEnd, ServerTime, the WALData byte length and the
logical payload, or failing), or a CopyData frame with any other first
byte, which matches no case of the outer switch. -/
inductive Frame where
  | timeoutFrame : Frame
  | recvFailure : Frame
  | errorResponse : Frame
  | nonCopyData : Frame
  | copyKeepalive : Nat → Nat → Bool → Frame
  | copyKeepaliveBad : Frame
  | copyXLogData : Nat → Nat → Nat → Nat → WireLogical → Frame
  | copyXLogDataBad : Frame
  | copyOther : Nat → Frame
deriving DecidableEq, Repr

/-- The outcome of one loop iteration: continue with a new state and
the events logged in this iteration, return cleanly (ErrorResponse),
exit the process via log.Fatal with a message, or crash with a runtime
panic. -/
inductive StepResult where
  | next : SessionState → List Event → StepResult
  | stop : StepResult
  | fatal : String → StepResult
  | panicked : String → StepResult
deriving DecidableEq, Repr

/-- True exactly on the continue outcome. -/
def StepResult.isNext : StepResult → Bool
  | StepResult.next _ _ => true
  | _ => false

/-- True exactly on the log.Fatal outcome. -/
def StepResult.isFatal : StepResult → Bool
  | StepResult.fatal _ => true
  | _ => false

/-- True exactly on the runtime-panic outcome. -/
def StepResult.isPanic : StepResult → Bool
  | StepResult.panicked _ => true
  | _ => false

/-- The receive-and-dispatch part of one loop iteration of main.go
(everything after the standby-status block): timeouts continue, other
receive errors are fatal, an ErrorResponse returns, a non-CopyData
message is logged and skipped, a keepalive with the reply-requested
flag zeroes the deadline (time.Time zero value), an XLogData frame is
parsed, dispatched, and then clientXLogPos is assigned
WALStart + len(WALData); parse failures are fatal. -/
def receivePhase (ci : Registry) (s : SessionState) (f : Frame) : StepResult :=
  match f with
  | Frame.timeoutFrame => StepResult.next s []
  | Frame.recvFailure => StepResult.fatal "ReceiveMessage failed"
  | Frame.errorResponse => StepResult.stop
  | Frame.nonCopyData => StepResult.next s []
  | Frame.copyKeepaliveBad => StepResult.fatal "ParsePrimaryKeepaliveMessage failed"
  | Frame.copyKeepalive _ _ reply =>
      StepResult.next (if reply then { s with nextDeadline := 0 } else s) []
  | Frame.copyXLogDataBad => StepResult.fatal "ParseXLogData failed"
  | Frame.copyXLogData walStart _ _ walDataLen payload =>
      match parseLogical payload with
      | Except.error e =>
          StepResult.fatal ("Parse logical replication message: " ++ e)
      | Except.ok m =>
        match handleLogical ci s m with
        | Except.error (Failure.fatalErr msg) => StepResult.fatal msg
        | Except.error (Failure.panicErr msg) => StepResult.panicked msg
        | Except.ok (s₂, events) =>
            StepResult.next { s₂ with clientXLogPos := walStart + walDataLen } events
  | Frame.copyOther _ => StepResult.next s []

/-- The external observations driving one loop iteration: the current
time at the top of the loop, whether SendStandbyStatusUpdate would
fail, and what the blocking receive yields. -/
structure StepInput where
  now : Nat
  sendFails : Bool
  frame : Frame
deriving DecidableEq, Repr

/-- One full iteration of the session loop of main.go.  First the
standby-status block: when now is after nextStandbyMessageDeadline a
status update carrying clientXLogPos is sent (a send failure is fatal)
and the deadline is reset to now plus the timeout; then the receive and
dispatch.  The Bool records whether a status update was sent in this
iteration. -/
def step (ci : Registry) (timeout : Nat) (s : SessionState)
    (inp : StepInput) : Bool × StepResult :=
  if s.nextDeadline < inp.now then
    if inp.sendFails then (true, StepResult.fatal "SendStandbyStatusUpdate failed")
    else (true, receivePhase ci { s with nextDeadline := inp.now + timeout } inp.frame)
  else
    (false, receivePhase ci s inp.frame)

/-- One row of the pg_replication_slots query result in main.go; the
code reads no field of it, only whether any row came back, but the
catalog row does carry the confirmed flush position of the slot. -/
structure SlotRow where
  slotName : String
  confirmedFlushLSN : Nat
deriving DecidableEq, Repr

/-- The outcome of the bootstrap slot logic of main.go: whether
CreateReplicationSlot was called and the position handed to
StartReplication. -/
structure BootstrapResult where
  createdSlot : Bool
  startPos : Nat
deriving DecidableEq, Repr

/-- The bootstrap sequence of main.go around the slot: query
pg_replication_slots by name, create the slot only when no row came
back, then call StartReplication with sysident.XLogPos — the position
from IdentifySystem — in both cases. -/
def bootstrapStartStreaming (sysidentXLogPos : Nat)
    (slotQueryRows : List SlotRow) : BootstrapResult :=
  { createdSlot := slotQueryRows.isEmpty, startPos := sysidentXLogPos }

/-- The state the standby-status block leaves behind before the
receive: the deadline is reset when a status update went out. -/
def statusState (timeout : Nat) (s : SessionState) (now : Nat) : SessionState :=
  if s.nextDeadline < now then { s with nextDeadline := now + timeout } else s

theorem statusState_clientXLogPos (timeout : Nat) (s : SessionState) (now : Nat) :
    (statusState timeout s now).clientXLogPos = s.clientXLogPos := by
  unfold statusState; split <;> rfl

theorem statusState_relations (timeout : Nat) (s : SessionState) (now : Nat) :
    (statusState timeout s now).relations = s.relations := by
  unfold statusState; split <;> rfl

theorem step_snd (ci : Registry) (timeout : Nat) (s : SessionState)
    (inp : StepInput) (hsend : inp.sendFails = false) :
    (step ci timeout s inp).2
      = receivePhase ci (statusState timeout s inp.now) inp.frame := by
  unfold step statusState
  by_cases hd : s.nextDeadline < inp.now
  · rw [if_pos hd, if_pos hd, hsend]; rfl
  · rw [if_neg hd, if_neg hd]

theorem step_fst_true_iff (ci : Registry) (timeout : Nat) (s : SessionState)
    (inp : StepInput) :
    (step ci timeout s inp).1 = true ↔ s.nextDeadline < inp.now := by
  unfold step
  by_cases hd : s.nextDeadline < inp.now
  · rw [if_pos hd]
    by_cases hs : inp.sendFails = true
    · rw [if_pos hs]; simpa using hd
    · rw [if_neg hs]; simpa using hd
  · rw [if_neg hd]; simpa using hd

/-- C8 (amended): the position handed to StartReplication is always the
position returned by IdentifySystem, whether or not the slot already
existed; the confirmed position carried by the slot-query rows is never
read. -/
theorem start_position_always_sysident (sysPos : Nat) (rows : List SlotRow) :
    (bootstrapStartStreaming sysPos rows).startPos = sysPos
    ∧ ((bootstrapStartStreaming sysPos rows).createdSlot = true ↔ rows = []) := by
  refine ⟨rfl, ?_⟩
  simp [bootstrapStartStreaming, List.isEmpty_iff]

/-- C8 counterexample: with an existing slot row whose confirmed flush
position is 42, no slot is created, yet streaming is requested from the
system position 100, not from 42, contradicting the claim that an
existing slot resumes from its last confirmed position. -/
theorem start_position_ignores_slot_cex :
    (bootstrapStartStreaming 100 [⟨"pglogrepl_demo", 42⟩]).createdSlot = false
    ∧ (bootstrapStartStreaming 100 [⟨"pglogrepl_demo", 42⟩]).startPos = 100
    ∧ (100 : Nat) ≠ 42 :=
  ⟨rfl, rfl, by decide⟩

theorem receivePhase_xlog_next_pos (ci : Registry) (s : SessionState)
    (walStart wEnd wTime walDataLen : Nat) (payload : WireLogical)
    (s₂ : SessionState) (evs : List Event)
    (h : receivePhase ci s (Frame.copyXLogData walStart wEnd wTime walDataLen payload)
          = StepResult.next s₂ evs) :
    s₂.clientXLogPos = walStart + walDataLen := by
  simp only [receivePhase] at h
  split at h
  · exact absurd h (by simp)
  · split at h
    · exact absurd h (by simp)
    · exact absurd h (by simp)
    · cases h; rfl

/-- C1 counterexample: two consecutively processed XLogData chunks in
one session.  The first chunk (WALStart 95, payload length 5) advances
the confirmed position to 100; the second (WALStart 10, payload length
5) sets it to 15, strictly below 100: the update is an unconditional
assignment of WALStart plus payload length, not a max, and the
confirmed position decreases. -/
theorem chunk_position_not_max_cex :
    (step sampleConnInfo 10 ⟨0, 1000, []⟩
        ⟨1, false, Frame.copyXLogData 95 0 0 5 WireLogical.beginMsg⟩).2
      = StepResult.next ⟨100, 1000, []⟩ [Event.beginLogged]
    ∧ (step sampleConnInfo 10 ⟨100, 1000, []⟩
        ⟨2, false, Frame.copyXLogData 10 0 0 5 WireLogical.beginMsg⟩).2
      = StepResult.next ⟨15, 1000, []⟩ [Event.beginLogged]
    ∧ 15 < 100 :=
  ⟨rfl, rfl, by decide⟩

/-- C1 (amended): after an XLogData chunk is processed to completion,
the confirmed position equals WALStart plus the payload length,
unconditionally; it is non-decreasing only under the hypothesis that
the incoming chunk satisfies WALStart plus payload length at or above
the current confirmed position. -/
theorem chunk_position_assignment (ci : Registry) (timeout : Nat)
    (s : SessionState) (inp : StepInput)
    (walStart wEnd wTime walDataLen : Nat) (payload : WireLogical)
    (s₂ : SessionState) (evs : List Event)
    (hsend : inp.sendFails = false)
    (hf : inp.frame = Frame.copyXLogData walStart wEnd wTime walDataLen payload)
    (hn : (step ci timeout s inp).2 = StepResult.next s₂ evs) :
    s₂.clientXLogPos = walStart + walDataLen
    ∧ (s.clientXLogPos ≤ walStart + walDataLen →
        s.clientXLogPos ≤ s₂.clientXLogPos) := by
  rw [step_snd ci timeout s inp hsend, hf] at hn
  have hpos := receivePhase_xlog_next_pos ci _ walStart wEnd wTime walDataLen
    payload s₂ evs hn
  exact ⟨hpos, fun hle => hpos ▸ hle⟩

/-- C1 amended witness: the theorem applied to the concrete second
chunk of the counterexample trace, starting from confirmed position 10. -/
theorem chunk_position_assignment_witness :
    (⟨100, 1000, []⟩ : SessionState).clientXLogPos = 95 + 5
    ∧ ((⟨10, 1000, []⟩ : SessionState).clientXLogPos ≤ 95 + 5 →
        (⟨10, 1000, []⟩ : SessionState).clientXLogPos
          ≤ (⟨100, 1000, []⟩ : SessionState).clientXLogPos) :=
  chunk_position_assignment sampleConnInfo 10 ⟨10, 1000, []⟩
    ⟨1, false, Frame.copyXLogData 95 0 0 5 WireLogical.beginMsg⟩
    95 0 0 5 WireLogical.beginMsg ⟨100, 1000, []⟩ [Event.beginLogged]
    rfl rfl rfl

/-- C6: a column tagged unchanged-external (byte 117, u) adds no
binding to the emitted row and in particular leaves the values map
exactly as it was, while a column tagged null (byte 110, n) binds the
column name to the null value; the two representations are never the
same, and the unchanged-external column is never coerced to null. -/
theorem unchanged_toast_not_null (ci : Registry)
    (relCols : List RelationColumn) (idx : Nat) (colU colN : TupleColumn)
    (rc : RelationColumn) (hrc : relCols[idx]? = some rc)
    (hu : colU.dataType = 117) (hn : colN.dataType = 110) :
    processColumn ci relCols idx colU = Except.ok none
    ∧ processColumn ci relCols idx colN
        = Except.ok (some (rc.name, Value.vNull))
    ∧ (∀ rest acc, processTupleAux ci relCols idx (colU :: rest) acc
        = processTupleAux ci relCols (idx + 1) rest acc)
    ∧ ((Except.ok none : Except Failure (Option (String × Value)))
        ≠ Except.ok (some (rc.name, Value.vNull))) := by
  have h1 : processColumn ci relCols idx colU = Except.ok none := by
    simp [processColumn, hrc, hu]
  have h2 : processColumn ci relCols idx colN
      = Except.ok (some (rc.name, Value.vNull)) := by
    simp [processColumn, hrc, hn]
  refine ⟨h1, h2, ?_, by simp⟩
  intro rest acc
  simp only [processTupleAux, h1]

/-- C6 witness: a concrete one-column schema with an unchanged-toast
column and a null column at position 0. -/
theorem unchanged_toast_not_null_witness :
    processColumn sampleConnInfo [⟨0, "name", 25⟩] 0 ⟨117, []⟩ = Except.ok none
    ∧ processColumn sampleConnInfo [⟨0, "name", 25⟩] 0 ⟨110, []⟩
        = Except.ok (some ("name", Value.vNull))
    ∧ (∀ rest acc,
        processTupleAux sampleConnInfo [⟨0, "name", 25⟩] 0 (⟨117, []⟩ :: rest) acc
          = processTupleAux sampleConnInfo [⟨0, "name", 25⟩] (0 + 1) rest acc)
    ∧ ((Except.ok none : Except Failure (Option (String × Value)))
        ≠ Except.ok (some ("name", Value.vNull))) :=
  unchanged_toast_not_null sampleConnInfo [⟨0, "name", 25⟩] 0 ⟨117, []⟩
    ⟨110, []⟩ ⟨0, "name", 25⟩ rfl rfl rfl

/-- C2 (amended): a text-decoding failure is session-fatal, not
recoverable per row.  First, in the per-column loop a text column
(byte 116) whose bytes the registered decoder rejects produces the
log.Fatalln outcome with the error-decoding message; second, at the
loop level, an Insert whose tuple decoding ends in a log.Fatal outcome
makes the whole iteration fatal — the session terminates rather than
continuing to the next message. -/
theorem text_decode_failure_terminates :
    (∀ (ci : Registry) (relCols : List RelationColumn) (idx : Nat)
        (col : TupleColumn) (rc : RelationColumn) (e : String),
        relCols[idx]? = some rc → col.dataType = 116 →
        decodeTextColumnData ci col.data rc.dataType = Except.error e →
        processColumn ci relCols idx col
          = Except.error (Failure.fatalErr ("error decoding column data: " ++ e)))
    ∧ (∀ (ci : Registry) (timeout : Nat) (s : SessionState) (inp : StepInput)
        (walStart wEnd wTime walDataLen rid : Nat) (tuple : TupleData)
        (rel : RelationMessage) (msg : String),
        inp.sendFails = false →
        inp.frame = Frame.copyXLogData walStart wEnd wTime walDataLen
          (WireLogical.insert rid tuple) →
        lookupRel s.relations rid = some rel →
        processTuple ci rel.columns tuple.columns
          = Except.error (Failure.fatalErr msg) →
        (step ci timeout s inp).2 = StepResult.fatal msg) := by
  constructor
  · intro ci relCols idx col rc e hrc ht hd
    simp [processColumn, hrc, ht, hd]
  · intro ci timeout s inp walStart wEnd wTime walDataLen rid tuple rel msg
      hsend hf hrel hpt
    rw [step_snd ci timeout s inp hsend, hf]
    simp only [receivePhase, parseLogical, handleLogical,
      statusState_relations, hrel, hpt]

/-- C2 amended witness: OID 23 is registered as the int4 decoder; the
bytes 97 98 99 (the text abc) are malformed for it, so the Insert of
that row ends the session with a fatal error. -/
theorem text_decode_failure_terminates_witness :
    processColumn sampleConnInfo [⟨0, "id", 23⟩] 0 ⟨116, [97, 98, 99]⟩
      = Except.error (Failure.fatalErr
          ("error decoding column data: " ++ "invalid int4 syntax"))
    ∧ (step sampleConnInfo 10
        ⟨0, 1000, [(1, ⟨1, "public", "trial", [⟨0, "id", 23⟩]⟩)]⟩
        ⟨1, false, Frame.copyXLogData 50 0 0 9
          (WireLogical.insert 1 ⟨[⟨116, [97, 98, 99]⟩]⟩)⟩).2
      = StepResult.fatal "error decoding column data: invalid int4 syntax" :=
  ⟨text_decode_failure_terminates.1 sampleConnInfo [⟨0, "id", 23⟩] 0
      ⟨116, [97, 98, 99]⟩ ⟨0, "id", 23⟩ "invalid int4 syntax" rfl rfl rfl,
   text_decode_failure_terminates.2 sampleConnInfo 10
      ⟨0, 1000, [(1, ⟨1, "public", "trial", [⟨0, "id", 23⟩]⟩)]⟩
      ⟨1, false, Frame.copyXLogData 50 0 0 9
        (WireLogical.insert 1 ⟨[⟨116, [97, 98, 99]⟩]⟩)⟩
      50 0 0 9 1 ⟨[⟨116, [97, 98, 99]⟩]⟩ ⟨1, "public", "trial", [⟨0, "id", 23⟩]⟩
      "error decoding column data: invalid int4 syntax" rfl rfl rfl rfl⟩

/-- C2 counterexample: the claim says the session loop continues past a
row whose text decoding fails; on the concrete malformed int4 row the
iteration outcome is the log.Fatal exit, not a continue. -/
theorem text_decode_failure_cex :
    ((step sampleConnInfo 10
        ⟨0, 1000, [(1, ⟨1, "public", "trial", [⟨0, "id", 23⟩]⟩)]⟩
        ⟨1, false, Frame.copyXLogData 50 0 0 9
          (WireLogical.insert 1 ⟨[⟨116, [97, 98, 99]⟩]⟩)⟩).2).isFatal = true
    ∧ ((step sampleConnInfo 10
        ⟨0, 1000, [(1, ⟨1, "public", "trial", [⟨0, "id", 23⟩]⟩)]⟩
        ⟨1, false, Frame.copyXLogData 50 0 0 9
          (WireLogical.insert 1 ⟨[⟨116, [97, 98, 99]⟩]⟩)⟩).2).isNext = false :=
  ⟨rfl, rfl⟩

/-- C4 (amended): a payload whose leading tag byte is unrecognized
makes pglogrepl.Parse return an unknown-message-type error, which the
loop treats as session-fatal via log.Fatalf; the log-and-skip path of
the dispatch default branch applies only to a successfully parsed
message the switch does not list, which continues the loop with the
unknown-type log line. -/
theorem unknown_tag_terminates (ci : Registry) (timeout : Nat)
    (s : SessionState) (inp : StepInput)
    (walStart wEnd wTime walDataLen tg : Nat)
    (hsend : inp.sendFails = false)
    (hf : inp.frame = Frame.copyXLogData walStart wEnd wTime walDataLen
      (WireLogical.unknownTag tg)) :
    (step ci timeout s inp).2
      = StepResult.fatal ("Parse logical replication message: "
          ++ ("unknown message type " ++ toString tg))
    ∧ (∀ s₀, handleLogical ci s₀ (WireLogical.unknownTag tg)
        = Except.ok (s₀, [Event.unknownLogged tg])) := by
  constructor
  · rw [step_snd ci timeout s inp hsend, hf]
    simp only [receivePhase, parseLogical]
  · intro s₀; rfl

/-- C4 amended witness: tag byte 90 (the letter Z) is not a recognized
logical message kind; the iteration is fatal with the parse message. -/
theorem unknown_tag_terminates_witness :
    (step sampleConnInfo 10 ⟨0, 1000, []⟩
        ⟨1, false, Frame.copyXLogData 50 0 0 4 (WireLogical.unknownTag 90)⟩).2
      = StepResult.fatal ("Parse logical replication message: "
          ++ ("unknown message type " ++ toString 90))
    ∧ (∀ s₀, handleLogical sampleConnInfo s₀ (WireLogical.unknownTag 90)
        = Except.ok (s₀, [Event.unknownLogged 90])) :=
  unknown_tag_terminates sampleConnInfo 10 ⟨0, 1000, []⟩
    ⟨1, false, Frame.copyXLogData 50 0 0 4 (WireLogical.unknownTag 90)⟩
    50 0 0 4 90 rfl rfl

/-- C4 counterexample: the claim says an unrecognized leading tag is
skipped and the loop continues; on the concrete payload with leading
tag 90 the iteration outcome is the log.Fatal exit, not a continue. -/
theorem unknown_tag_fatal_cex :
    ((step sampleConnInfo 10 ⟨0, 1000, []⟩
        ⟨1, false, Frame.copyXLogData 50 0 0 4 (WireLogical.unknownTag 90)⟩).2).isFatal
      = true
    ∧ ((step sampleConnInfo 10 ⟨0, 1000, []⟩
        ⟨1, false, Frame.copyXLogData 50 0 0 4 (WireLogical.unknownTag 90)⟩).2).isNext
      = false :=
  ⟨rfl, rfl⟩

/-- C7: an Insert whose relation ID has no entry in the relation cache
makes the iteration exit via log.Fatalf with the unknown-relation
message; the fatal outcome carries no continuation state and no
events, so the loop terminates and no partial change event is emitted
for that message. -/
theorem unknown_relation_insert_fatal (ci : Registry) (timeout : Nat)
    (s : SessionState) (inp : StepInput)
    (walStart wEnd wTime walDataLen rid : Nat) (tuple : TupleData)
    (hsend : inp.sendFails = false)
    (hf : inp.frame = Frame.copyXLogData walStart wEnd wTime walDataLen
      (WireLogical.insert rid tuple))
    (hrel : lookupRel s.relations rid = none) :
    (step ci timeout s inp).2
      = StepResult.fatal ("unknown relation ID " ++ toString rid) := by
  rw [step_snd ci timeout s inp hsend, hf]
  simp only [receivePhase, parseLogical, handleLogical,
    statusState_relations, hrel]

/-- C7 witness: an Insert for relation ID 7 against an empty relation
cache is fatal. -/
theorem unknown_relation_insert_fatal_witness :
    (step sampleConnInfo 10 ⟨0, 1000, []⟩
        ⟨1, false, Frame.copyXLogData 50 0 0 6
          (WireLogical.insert 7 ⟨[⟨110, []⟩]⟩)⟩).2
      = StepResult.fatal ("unknown relation ID " ++ toString 7) :=
  unknown_relation_insert_fatal sampleConnInfo 10 ⟨0, 1000, []⟩
    ⟨1, false, Frame.copyXLogData 50 0 0 6 (WireLogical.insert 7 ⟨[⟨110, []⟩]⟩)⟩
    50 0 0 6 7 ⟨[⟨110, []⟩]⟩ rfl rfl rfl

/-- C10: Delete and Truncate messages never consult the relation
cache: for any session state, the dispatch serializes and logs them and
continues, even when their relation ID has no cache entry; at the loop
level such an iteration continues to the next message with the logged
event. -/
theorem delete_truncate_skip_cache :
    (∀ (ci : Registry) (s : SessionState) (rid : Nat)
        (oldT : Option TupleData),
        handleLogical ci s (WireLogical.delete rid oldT)
          = Except.ok (s, [Event.deleteLogged rid]))
    ∧ (∀ (ci : Registry) (s : SessionState) (rids : List Nat),
        handleLogical ci s (WireLogical.truncate rids)
          = Except.ok (s, [Event.truncateLogged rids]))
    ∧ (∀ (ci : Registry) (timeout : Nat) (s : SessionState) (inp : StepInput)
        (walStart wEnd wTime walDataLen rid : Nat) (oldT : Option TupleData),
        inp.sendFails = false →
        inp.frame = Frame.copyXLogData walStart wEnd wTime walDataLen
          (WireLogical.delete rid oldT) →
        lookupRel s.relations rid = none →
        ∃ s₂, (step ci timeout s inp).2
          = StepResult.next s₂ [Event.deleteLogged rid]) := by
  refine ⟨fun ci s rid oldT => rfl, fun ci s rids => rfl, ?_⟩
  intro ci timeout s inp walStart wEnd wTime walDataLen rid oldT hsend hf hrel
  rw [step_snd ci timeout s inp hsend, hf]
  exact ⟨_, rfl⟩

/-- C10 witness: a Delete for relation ID 7 against an empty relation
cache is logged and the loop continues. -/
theorem delete_truncate_skip_cache_witness :
    handleLogical sampleConnInfo ⟨0, 1000, []⟩ (WireLogical.delete 7 none)
      = Except.ok (⟨0, 1000, []⟩, [Event.deleteLogged 7])
    ∧ handleLogical sampleConnInfo ⟨0, 1000, []⟩ (WireLogical.truncate [7])
      = Except.ok (⟨0, 1000, []⟩, [Event.truncateLogged [7]])
    ∧ ∃ s₂, (step sampleConnInfo 10 ⟨0, 1000, []⟩
        ⟨1, false, Frame.copyXLogData 50 0 0 3 (WireLogical.delete 7 none)⟩).2
      = StepResult.next s₂ [Event.deleteLogged 7] :=
  ⟨delete_truncate_skip_cache.1 sampleConnInfo ⟨0, 1000, []⟩ 7 none,
   delete_truncate_skip_cache.2.1 sampleConnInfo ⟨0, 1000, []⟩ [7],
   delete_truncate_skip_cache.2.2 sampleConnInfo 10 ⟨0, 1000, []⟩
     ⟨1, false, Frame.copyXLogData 50 0 0 3 (WireLogical.delete 7 none)⟩
     50 0 0 3 7 none rfl rfl rfl⟩

theorem processColumn_no_panic (ci : Registry)
    (relCols : List RelationColumn) (idx : Nat) (col : TupleColumn)
    (h : idx < relCols.length) (msg : String) :
    processColumn ci relCols idx col
      ≠ Except.error (Failure.panicErr msg) := by
  intro hcontra
  simp only [processColumn, List.getElem?_eq_getElem h] at hcontra
  split_ifs at hcontra
  all_goals
    first
      | simp at hcontra
      | (split at hcontra <;> simp at hcontra)

theorem processTupleAux_no_panic (ci : Registry)
    (relCols : List RelationColumn) (cols : List TupleColumn) :
    ∀ (idx : Nat) (acc : List (String × Value)),
      idx + cols.length ≤ relCols.length →
      ∀ msg, processTupleAux ci relCols idx cols acc
        ≠ Except.error (Failure.panicErr msg) := by
  induction cols with
  | nil =>
      intro idx acc _ msg
      simp [processTupleAux]
  | cons c rest ih =>
      intro idx acc h msg
      have hidx : idx < relCols.length := by
        simp only [List.length_cons] at h; omega
      simp only [processTupleAux]
      rcases hpc : processColumn ci relCols idx c with f | ov
      · cases f with
        | fatalErr m => simp
        | panicErr m => exact absurd hpc (processColumn_no_panic ci relCols idx c hidx m)
      · rcases ov with _ | ⟨k, v⟩
        · exact ih (idx + 1) acc
            (by simp only [List.length_cons] at h; omega) msg
        · exact ih (idx + 1) (mapInsert acc k v)
            (by simp only [List.length_cons] at h; omega) msg

/-- C5 (amended): the per-column loop performs no column-count check.
A tuple position at or past the length of the cached schema is an
index-out-of-range runtime panic, not a typed fatal decode error; and
a tuple with no more columns than the schema never produces that panic
— in particular a shorter tuple is decoded without any mismatch
error. -/
theorem no_column_count_check :
    (∀ (ci : Registry) (relCols : List RelationColumn) (idx : Nat)
        (col : TupleColumn),
        relCols.length ≤ idx →
        processColumn ci relCols idx col
          = Except.error (Failure.panicErr "runtime error: index out of range"))
    ∧ (∀ (ci : Registry) (relCols : List RelationColumn)
        (cols : List TupleColumn),
        cols.length ≤ relCols.length →
        ∀ msg, processTuple ci relCols cols
          ≠ Except.error (Failure.panicErr msg)) := by
  constructor
  · intro ci relCols idx col h
    simp [processColumn, List.getElem?_eq_none h]
  · intro ci relCols cols h msg
    exact processTupleAux_no_panic ci relCols cols 0 []
      (by simpa using h) msg

/-- C5 amended witness: indexing one past a one-column schema panics,
while a one-column tuple against that schema never panics. -/
theorem no_column_count_check_witness :
    processColumn sampleConnInfo [⟨0, "id", 23⟩] 1 ⟨110, []⟩
      = Except.error (Failure.panicErr "runtime error: index out of range")
    ∧ ∀ msg, processTuple sampleConnInfo [⟨0, "id", 23⟩] [⟨110, []⟩]
        ≠ Except.error (Failure.panicErr msg) :=
  ⟨no_column_count_check.1 sampleConnInfo [⟨0, "id", 23⟩] 1 ⟨110, []⟩
      (by decide),
   no_column_count_check.2 sampleConnInfo [⟨0, "id", 23⟩] [⟨110, []⟩]
      (by decide)⟩

/-- C5 counterexample: an Insert tuple with two columns against a
cached one-column schema.  The claim says a typed session-fatal decode
error is raised before any out-of-bounds access; the iteration outcome
is instead the runtime panic of the out-of-range index, and no typed
fatal error is raised. -/
theorem column_count_mismatch_panic_cex :
    ((step sampleConnInfo 10
        ⟨0, 1000, [(1, ⟨1, "public", "trial", [⟨0, "id", 23⟩]⟩)]⟩
        ⟨1, false, Frame.copyXLogData 50 0 0 7
          (WireLogical.insert 1 ⟨[⟨110, []⟩, ⟨110, []⟩]⟩)⟩).2).isPanic = true
    ∧ ((step sampleConnInfo 10
        ⟨0, 1000, [(1, ⟨1, "public", "trial", [⟨0, "id", 23⟩]⟩)]⟩
        ⟨1, false, Frame.copyXLogData 50 0 0 7
          (WireLogical.insert 1 ⟨[⟨110, []⟩, ⟨110, []⟩]⟩)⟩).2).isFatal = false :=
  ⟨rfl, rfl⟩

theorem step_next_receive (ci : Registry) (timeout : Nat)
    (s : SessionState) (inp : StepInput) (s₂ : SessionState)
    (evs : List Event)
    (h : (step ci timeout s inp).2 = StepResult.next s₂ evs) :
    ∃ s₀ : SessionState, s₀.clientXLogPos = s.clientXLogPos
      ∧ s₀.relations = s.relations
      ∧ receivePhase ci s₀ inp.frame = StepResult.next s₂ evs := by
  unfold step at h
  by_cases hd : s.nextDeadline < inp.now
  · rw [if_pos hd] at h
    by_cases hs : inp.sendFails = true
    · rw [if_pos hs] at h
      exact absurd h (by simp)
    · rw [if_neg hs] at h
      exact ⟨{ s with nextDeadline := inp.now + timeout }, rfl, rfl, h⟩
  · rw [if_neg hd] at h
    exact ⟨s, rfl, rfl, h⟩

/-- C3: a standby status update goes out in an iteration exactly when
the current time is past the deadline; a keepalive with the
reply-requested flag leaves the deadline at the zero time value; and
from any state whose deadline is the zero time value, every iteration
at a positive time sends a status update — so the very next iteration
after a reply request sends one regardless of the interval. -/
theorem status_update_iff_deadline (ci : Registry) (timeout : Nat)
    (s : SessionState) (inp : StepInput) (hsend : inp.sendFails = false) :
    ((step ci timeout s inp).1 = true ↔ s.nextDeadline < inp.now)
    ∧ (∀ wEnd wTime, inp.frame = Frame.copyKeepalive wEnd wTime true →
        ∃ s₂, (step ci timeout s inp).2 = StepResult.next s₂ []
          ∧ s₂.nextDeadline = 0)
    ∧ (∀ s₂ : SessionState, s₂.nextDeadline = 0 →
        ∀ inp₂ : StepInput, 0 < inp₂.now →
          (step ci timeout s₂ inp₂).1 = true) := by
  refine ⟨step_fst_true_iff ci timeout s inp, ?_, ?_⟩
  · intro wEnd wTime hf
    rw [step_snd ci timeout s inp hsend, hf]
    exact ⟨{ statusState timeout s inp.now with nextDeadline := 0 }, rfl, rfl⟩
  · intro s₂ h0 inp₂ hnow
    exact (step_fst_true_iff ci timeout s₂ inp₂).mpr (h0 ▸ hnow)

/-- C3 witness: with deadline 5 at time 7 a status update is sent, and
a reply-requested keepalive leaves the deadline at zero. -/
theorem status_update_iff_deadline_witness :
    (step sampleConnInfo 10 ⟨0, 5, []⟩
        ⟨7, false, Frame.copyKeepalive 1 2 true⟩).1 = true
    ∧ ∃ s₂, (step sampleConnInfo 10 ⟨0, 5, []⟩
          ⟨7, false, Frame.copyKeepalive 1 2 true⟩).2 = StepResult.next s₂ []
        ∧ s₂.nextDeadline = 0 :=
  ⟨((status_update_iff_deadline sampleConnInfo 10 ⟨0, 5, []⟩
      ⟨7, false, Frame.copyKeepalive 1 2 true⟩ rfl).1).mpr (by decide),
   (status_update_iff_deadline sampleConnInfo 10 ⟨0, 5, []⟩
      ⟨7, false, Frame.copyKeepalive 1 2 true⟩ rfl).2.1 1 2 rfl⟩

/-- C9: processing a well-formed primary keepalive never changes the
confirmed position or the relation cache — the iteration continues
with the same clientXLogPos and relations, whatever the
reply-requested flag — and conversely, whenever an iteration continues
with a changed confirmed position, the frame it processed was an
XLogData frame. -/
theorem keepalive_preserves_position :
    (∀ (ci : Registry) (timeout : Nat) (s : SessionState) (inp : StepInput)
        (wEnd wTime : Nat) (reply : Bool),
        inp.sendFails = false →
        inp.frame = Frame.copyKeepalive wEnd wTime reply →
        ∃ s₂, (step ci timeout s inp).2 = StepResult.next s₂ []
          ∧ s₂.clientXLogPos = s.clientXLogPos
          ∧ s₂.relations = s.relations)
    ∧ (∀ (ci : Registry) (timeout : Nat) (s : SessionState) (inp : StepInput)
        (s₂ : SessionState) (evs : List Event),
        (step ci timeout s inp).2 = StepResult.next s₂ evs →
        s₂.clientXLogPos ≠ s.clientXLogPos →
        ∃ walStart wEnd wTime walDataLen payload,
          inp.frame = Frame.copyXLogData walStart wEnd wTime walDataLen payload) := by
  constructor
  · intro ci timeout s inp wEnd wTime reply hsend hf
    rw [step_snd ci timeout s inp hsend, hf]
    cases reply with
    | false =>
        exact ⟨statusState timeout s inp.now, rfl,
          statusState_clientXLogPos timeout s inp.now,
          statusState_relations timeout s inp.now⟩
    | true =>
        exact ⟨{ statusState timeout s inp.now with nextDeadline := 0 }, rfl,
          statusState_clientXLogPos timeout s inp.now,
          statusState_relations timeout s inp.now⟩
  · intro ci timeout s inp s₂ evs h hne
    obtain ⟨s₀, hpos, _, hr⟩ := step_next_receive ci timeout s inp s₂ evs h
    cases hf : inp.frame with
    | timeoutFrame =>
        rw [hf] at hr; simp only [receivePhase] at hr
        cases hr; exact absurd hpos hne
    | recvFailure =>
        rw [hf] at hr; simp only [receivePhase] at hr
        exact absurd hr (by simp)
    | errorResponse =>
        rw [hf] at hr; simp only [receivePhase] at hr
        exact absurd hr (by simp)
    | nonCopyData =>
        rw [hf] at hr; simp only [receivePhase] at hr
        cases hr; exact absurd hpos hne
    | copyKeepalive wEnd wTime reply =>
        rw [hf] at hr; simp only [receivePhase] at hr
        cases reply with
        | false => simp only [Bool.false_eq_true, if_false] at hr
                   cases hr; exact absurd hpos hne
        | true => simp only [if_true] at hr
                  cases hr; exact absurd hpos hne
    | copyKeepaliveBad =>
        rw [hf] at hr; simp only [receivePhase] at hr
        exact absurd hr (by simp)
    | copyXLogData walStart wEnd wTime walDataLen payload =>
        exact ⟨walStart, wEnd, wTime, walDataLen, payload, rfl⟩
    | copyXLogDataBad =>
        rw [hf] at hr; simp only [receivePhase] at hr
        exact absurd hr (by simp)
    | copyOther b =>
        rw [hf] at hr; simp only [receivePhase] at hr
        cases hr; exact absurd hpos hne

/-- C9 witness: a reply-requested keepalive at confirmed position 33
continues with position 33 and the same cache. -/
theorem keepalive_preserves_position_witness :
    ∃ s₂, (step sampleConnInfo 10 ⟨33, 1000, []⟩
        ⟨1, false, Frame.copyKeepalive 5 6 true⟩).2 = StepResult.next s₂ []
      ∧ s₂.clientXLogPos = (⟨33, 1000, []⟩ : SessionState).clientXLogPos
      ∧ s₂.relations = (⟨33, 1000, []⟩ : SessionState).relations :=
  keepalive_preserves_position.1 sampleConnInfo 10 ⟨33, 1000, []⟩
    ⟨1, false, Frame.copyKeepalive 5 6 true⟩ 5 6 true rfl rfl

end CDC
